import Mathlib

/-!
Shallow embedding of the WSI dataset derivation and validation engine of
`wsidicom/instance/dataset.py`, together with theorems checking the
natural-language specification against it.

Python exceptions are modelled as an explicit error type returned through
`Except`.  Exception messages are not modelled; only the exception class is.
The process-wide configuration flags (`settings.strict_attribute_check`,
`settings.focal_plane_distance_threshold`) are passed as explicit
parameters, following the design note of the spec that routes the global
configuration through every entry point.  Python floats are modelled as
exact rationals.
-/

namespace WsiDicom

/-- Error classes raised by the Python code (exception class only, messages
are not modelled). -/
inductive WsiError where
  /-- Python `AttributeError` (missing attribute on a direct access). -/
  | attributeError
  /-- Python `KeyError` (name missing from the `WSI_ATTRIBUTES` table). -/
  | keyError
  /-- Python `ValueError`. -/
  | valueError
  /-- Python `IndexError` (subscript out of range). -/
  | indexError
  /-- A value had a type other than the one the code consumes it at. -/
  | typeError
  /-- Python `ZeroDivisionError`. -/
  | zeroDivisionError
  /-- `WsiDicomRequirementError`. -/
  | requirementError
  /-- `WsiDicomStrictRequirementError`. -/
  | strictRequirementError
  /-- `WsiDicomError`. -/
  | wsiDicomError
  /-- Python `NotImplementedError`. -/
  | notImplementedError
  deriving DecidableEq, Repr

/-- `ImageType` enum of `dataset.py`. -/
inductive ImageType where
  | VOLUME
  | LABEL
  | OVERVIEW
  deriving DecidableEq, Repr

/-- `Requirement` enum of `dataset.py`. -/
inductive Requirement where
  | ALWAYS
  | STRICT
  | STANDARD
  deriving DecidableEq, Repr

/-- `TileType` enum of `dataset.py`. -/
inductive TileType where
  | FULL
  | SPARSE
  deriving DecidableEq, Repr

/-- A DICOM attribute value, as far as the code under analysis inspects
values: integers, decimal numbers (Python floats, modelled as rationals),
strings, multi-valued string and number attributes, and sequences of nested
datasets.  A dataset is an association list from attribute keyword to
value; pydicom datasets have at most one value per keyword. -/
inductive DicomValue where
  | vInt : Int → DicomValue
  | vNum : ℚ → DicomValue
  | vStr : String → DicomValue
  | vStrList : List String → DicomValue
  | vNumList : List ℚ → DicomValue
  | vDatasetList : List (List (String × DicomValue)) → DicomValue

/-- The attribute-store view of a pydicom `Dataset`: keyword/value pairs. -/
abbrev DicomDataset := List (String × DicomValue)

/-- Attribute access: the value stored under a keyword, if present
(`getattr(dataset, name, None)` on a pydicom dataset). -/
def lookupAttr : DicomDataset → String → Option DicomValue
  | [], _ => none
  | (k, w) :: rest, name => if k = name then some w else lookupAttr rest name

/-- Attribute assignment: replace the value stored under a keyword, or
append the pair if the keyword is absent. -/
def setAttr : DicomDataset → String → DicomValue → DicomDataset
  | [], name, v => [(name, v)]
  | (k, w) :: rest, name, v =>
      if k = name then (name, v) :: rest else (k, w) :: setAttr rest name v

/-- Attribute deletion (`del dataset[name]`), a no-op when absent. -/
def removeAttr : DicomDataset → String → DicomDataset
  | [], _ => []
  | (k, w) :: rest, name =>
      if k = name then removeAttr rest name else (k, w) :: removeAttr rest name

/-- `WsiAttributeRequirement` dataclass: requirement severity, tuple of
applicable image types, optional default value. -/
structure WsiAttributeRequirement where
  requirement : Requirement
  image_types : List ImageType
  default : Option DicomValue

/-- The `WsiAttributeRequirement.__init__` constructor: a single image type
becomes a one-element tuple, a sequence is kept, absence becomes the empty
tuple.  The constructor stores the default unconditionally; it performs no
validation of the severity/default combination. -/
def WsiAttributeRequirement.init (requirement : Requirement)
    (image_type : Option (List ImageType) := none)
    (default : Option DicomValue := none) : WsiAttributeRequirement :=
  { requirement := requirement
    image_types := image_type.getD []
    default := default }

/-- `WsiAttributeRequirement.get_default`: raises the requirement error when
the attribute is ALWAYS-required for the image type, the strict-requirement
error when it is STRICT-required and strict mode is on, and otherwise
returns the stored default (which may be absent).  `strict` models the
process-wide `settings.strict_attribute_check` flag. -/
def WsiAttributeRequirement.get_default (req : WsiAttributeRequirement)
    (strict : Bool) (image_type : ImageType) :
    Except WsiError (Option DicomValue) :=
  if req.requirement = .ALWAYS ∧ image_type ∈ req.image_types then
    .error .requirementError
  else if strict ∧ req.requirement = .STRICT ∧ image_type ∈ req.image_types then
    .error .strictRequirementError
  else
    .ok req.default

/-- `WsiAttributeRequirement.evaluate`: whether the attribute is required
for the image type, given the strict-mode flag.  Note the code tests
membership of the image type in the (possibly empty) applicable tuple. -/
def WsiAttributeRequirement.evaluate (req : WsiAttributeRequirement)
    (strict : Bool) (image_type : ImageType) : Bool :=
  (req.requirement = .ALWAYS ∨ (req.requirement = .STRICT ∧ strict = true))
    ∧ image_type ∈ req.image_types

/-- The `WSI_ATTRIBUTES` table of `dataset.py`, entry for entry, with each
entry built through the constructor exactly as in the source. -/
def WSI_ATTRIBUTES : List (String × WsiAttributeRequirement) :=
  [ ("SOPClassUID", .init .ALWAYS),
    ("SOPInstanceUID", .init .ALWAYS),
    ("StudyInstanceUID", .init .ALWAYS),
    ("SeriesInstanceUID", .init .ALWAYS),
    ("Rows", .init .ALWAYS),
    ("Columns", .init .ALWAYS),
    ("SamplesPerPixel", .init .ALWAYS),
    ("PhotometricInterpretation", .init .ALWAYS),
    ("TotalPixelMatrixColumns", .init .ALWAYS),
    ("TotalPixelMatrixRows", .init .ALWAYS),
    ("ImageType", .init .ALWAYS),
    ("SharedFunctionalGroupsSequence", .init .STRICT (some [.VOLUME])),
    ("FrameOfReferenceUID", .init .STRICT),
    ("FocusMethod", .init .STRICT (some [.VOLUME]) (some (.vStr "AUTO"))),
    ("ExtendedDepthOfField", .init .STRICT (some [.VOLUME]) (some (.vStr "NO"))),
    ("OpticalPathSequence", .init .STRICT),
    ("ImagedVolumeWidth", .init .STRICT (some [.VOLUME])),
    ("ImagedVolumeHeight", .init .STRICT (some [.VOLUME])),
    ("ImagedVolumeDepth", .init .STRICT (some [.VOLUME])),
    ("TotalPixelMatrixFocalPlanes", .init .STANDARD none (some (.vInt 1))),
    ("NumberOfOpticalPaths", .init .STANDARD none (some (.vInt 1))),
    ("NumberOfFrames", .init .STANDARD none (some (.vInt 1))),
    ("Modality", .init .STANDARD none (some (.vStr "SM"))),
    ("Manufacturer", .init .STANDARD),
    ("ManufacturerModelName", .init .STANDARD),
    ("DeviceSerialNumber", .init .STANDARD),
    ("SoftwareVersions", .init .STANDARD),
    ("BitsAllocated", .init .STANDARD),
    ("BitsStored", .init .STANDARD),
    ("HighBit", .init .STANDARD),
    ("PixelRepresentation", .init .STANDARD),
    ("TotalPixelMatrixOriginSequence", .init .STANDARD),
    ("ImageOrientationSlide", .init .STANDARD none
      (some (.vNumList [0, 1, 0, 1, 0, 0]))),
    ("AcquisitionDateTime", .init .STANDARD),
    ("LossyImageCompression", .init .STANDARD),
    ("VolumetricProperties", .init .STANDARD none (some (.vStr "VOLUME"))),
    ("SpecimenLabelInImage", .init .STANDARD none (some (.vStr "NO"))),
    ("BurnedInAnnotation", .init .STANDARD none (some (.vStr "NO"))),
    ("ContentDate", .init .STANDARD),
    ("ContentTime", .init .STANDARD),
    ("InstanceNumber", .init .STANDARD),
    ("DimensionOrganizationSequence", .init .STANDARD),
    ("ContainerIdentifier", .init .STANDARD),
    ("SpecimenDescriptionSequence", .init .STANDARD),
    ("SpacingBetweenSlices", .init .STANDARD none (some (.vNum 0))),
    ("SOPInstanceUIDOfConcatenationSource", .init .STANDARD),
    ("DimensionOrganizationType", .init .STANDARD none
      (some (.vStr "TILED_SPARSE"))),
    ("NumberOfFocalPlanes", .init .STANDARD none (some (.vInt 1))),
    ("DistanceBetweenFocalPlanes", .init .STANDARD none (some (.vNum 0))),
    ("SliceThickness", .init .STANDARD) ]

/-- Lookup in the `WSI_ATTRIBUTES` table (`WSI_ATTRIBUTES[name]`, where a
missing key is a `KeyError`, modelled as `none` here and turned into the
error at the use site). -/
def lookupReq : List (String × WsiAttributeRequirement) → String →
    Option WsiAttributeRequirement
  | [], _ => none
  | (k, w) :: rest, name => if k = name then some w else lookupReq rest name

/-- Modelled from the spec: the whole-slide-image SOP class identifier
(`WSI_SOP_CLASS_UID` of `wsidicom/uid.py`, which is not under the analysed
sources; the spec describes it as the class a supported object's SOP class
must equal). -/
def WSI_SOP_CLASS_UID : String := "1.2.840.10008.5.1.4.1.1.77.1.6"

/-- Modelled from the spec: integer ceiling division, the arithmetic behind
`Size.ceil_div` of `wsidicom/geometry.py` (not under the analysed sources).
Meaningful for a positive divisor, which every caller in the analysed code
guarantees; division by zero (a Python `ZeroDivisionError`) is not
modelled. -/
def intCeilDiv (a b : Int) : Int := (a + b - 1) / b

/-- Modelled from the spec: the `Size` pixel-geometry type of
`wsidicom/geometry.py` (not under the analysed sources): an integer width
and height with ceiling division and area. -/
structure Size where
  width : Int
  height : Int
  deriving DecidableEq, Repr

/-- Componentwise ceiling division of a size by a size. -/
def Size.ceil_div_size (s d : Size) : Size :=
  ⟨intCeilDiv s.width d.width, intCeilDiv s.height d.height⟩

/-- Componentwise ceiling division of a size by an integer scale. -/
def Size.ceil_div_int (s : Size) (d : Int) : Size :=
  ⟨intCeilDiv s.width d, intCeilDiv s.height d⟩

/-- Area of a size. -/
def Size.area (s : Size) : Int := s.width * s.height

/-- Modelled from the spec: the `SizeMm` millimeter-geometry type of
`wsidicom/geometry.py` (not under the analysed sources). -/
structure SizeMm where
  width : ℚ
  height : ℚ
  deriving DecidableEq, Repr

/-- `WsiDataset._get_image_type`: pick index 2 of the image-type descriptor
and parse it as the `ImageType` enum.  A short descriptor is an
`IndexError`; an unknown value is the `ValueError` of an enum lookup. -/
def get_image_type (wsi_type : List String) : Except WsiError ImageType :=
  match wsi_type.get? 2 with
  | none => .error .indexError
  | some s =>
      if s = "VOLUME" then .ok .VOLUME
      else if s = "LABEL" then .ok .LABEL
      else if s = "OVERVIEW" then .ok .OVERVIEW
      else .error .valueError

/-- `WsiDataset.image_type`: the image type parsed from the dataset's
`ImageType` attribute (a direct attribute access, so absence is an
`AttributeError`). -/
def image_type (ds : DicomDataset) : Except WsiError ImageType :=
  match lookupAttr ds "ImageType" with
  | none => .error .attributeError
  | some (.vStrList l) => get_image_type l
  | some _ => .error .typeError

/-- `WsiDataset._get_dicom_attribute`: the value stored under `name` in
`source` if present, otherwise the table entry's default resolved through
`get_default` against the image type of `ds`.  The table subscript happens
before the image-type derivation (so an unknown name is a `KeyError` even
when the image type would not derive), and the image type is derived
before `get_default` runs (so a dataset without an `ImageType` attribute
makes the default path an `AttributeError`).  `source` models the optional
`dataset` argument, defaulting to the dataset itself. -/
def get_dicom_attribute (strict : Bool) (ds source : DicomDataset)
    (name : String) : Except WsiError (Option DicomValue) :=
  match lookupAttr source name with
  | some v => .ok (some v)
  | none =>
      match lookupReq WSI_ATTRIBUTES name with
      | none => .error .keyError
      | some req =>
          match image_type ds with
          | .error e => .error e
          | .ok it => req.get_default strict it

/-- `WsiDataset.frame_count`: the `NumberOfFrames` attribute resolved
through the requirement table (default 1), consumed as an integer. -/
def frame_count (strict : Bool) (ds : DicomDataset) : Except WsiError Int :=
  match get_dicom_attribute strict ds ds "NumberOfFrames" with
  | .error e => .error e
  | .ok (some (.vInt n)) => .ok n
  | .ok _ => .error .typeError

/-- Whether a resolved attribute value is the explicit `"TILED_FULL"`
string marker (the comparison `tile_type == "TILED_FULL"`). -/
def isTiledFullMarker : Option DicomValue → Bool
  | some (.vStr s) => s = "TILED_FULL"
  | _ => false

/-- `WsiDataset.tile_type`: explicit `"TILED_FULL"` marker gives FULL, a
present per-frame functional group sequence gives SPARSE, a single frame
gives FULL, and otherwise the undetermined-tile-type `WsiDicomError` is
raised. -/
def tile_type (strict : Bool) (ds : DicomDataset) : Except WsiError TileType :=
  match get_dicom_attribute strict ds ds "DimensionOrganizationType" with
  | .error e => .error e
  | .ok v =>
      if isTiledFullMarker v then .ok .FULL
      else if (lookupAttr ds "PerFrameFunctionalGroupsSequence").isSome then
        .ok .SPARSE
      else
        match frame_count strict ds with
        | .error e => .error e
        | .ok n => if n = 1 then .ok .FULL else .error .wsiDicomError

/-- Read a direct integer attribute (`self.X` on a pydicom dataset:
absence is an `AttributeError`). -/
def getIntAttr (ds : DicomDataset) (name : String) : Except WsiError Int :=
  match lookupAttr ds name with
  | some (.vInt n) => .ok n
  | some _ => .error .typeError
  | none => .error .attributeError

/-- `WsiDataset.tile_size`: `Size(Columns, Rows)` from direct attribute
accesses. -/
def tile_size (ds : DicomDataset) : Except WsiError Size :=
  match getIntAttr ds "Columns" with
  | .error e => .error e
  | .ok c =>
      match getIntAttr ds "Rows" with
      | .error e => .error e
      | .ok r => .ok ⟨c, r⟩

/-- `WsiDataset.image_size`: the declared total pixel matrix size, checked
for positivity, and for FULL tiling checked for consistency with the tile
size and frame count.  On a mismatch the derivation raises `WsiDicomError`
for VOLUME images or any frame count other than one, and otherwise
overrides the image size with the tile size while logging a warning.  The
boolean of the result records whether that warning was logged. -/
def image_size (strict : Bool) (ds : DicomDataset) :
    Except WsiError (Size × Bool) :=
  match getIntAttr ds "TotalPixelMatrixColumns" with
  | .error e => .error e
  | .ok cols =>
      match getIntAttr ds "TotalPixelMatrixRows" with
      | .error e => .error e
      | .ok rows =>
          if cols ≤ 0 ∨ rows ≤ 0 then .error .wsiDicomError
          else
            match tile_type strict ds with
            | .error e => .error e
            | .ok .SPARSE => .ok (⟨cols, rows⟩, false)
            | .ok .FULL =>
                match tile_size ds with
                | .error e => .error e
                | .ok ts =>
                    match frame_count strict ds with
                    | .error e => .error e
                    | .ok n =>
                        if ((Size.mk cols rows).ceil_div_size ts).area = n then
                          .ok (⟨cols, rows⟩, false)
                        else
                          match image_type ds with
                          | .error e => .error e
                          | .ok it =>
                              if it = .VOLUME ∨ n ≠ 1 then
                                .error .wsiDicomError
                              else .ok (ts, true)

/-- `WsiDataset.pixel_measure`: the first dataset of the
`PixelMeasuresSequence` of the first shared functional group, `none` when
the shared functional group sequence resolves to `none`.  Note that when
the shared group is present but carries no `PixelMeasuresSequence`, the
lookup goes through `_get_dicom_attribute` with a name that is not in
`WSI_ATTRIBUTES`, which is a `KeyError`. -/
def pixel_measure (strict : Bool) (ds : DicomDataset) :
    Except WsiError (Option DicomDataset) :=
  match get_dicom_attribute strict ds ds "SharedFunctionalGroupsSequence" with
  | .error e => .error e
  | .ok none => .ok none
  | .ok (some (.vDatasetList sfg)) =>
      match sfg with
      | [] => .error .indexError
      | g0 :: _ =>
          match get_dicom_attribute strict ds g0 "PixelMeasuresSequence" with
          | .error e => .error e
          | .ok none => .ok none
          | .ok (some (.vDatasetList pms)) =>
              match pms with
              | [] => .error .indexError
              | pm :: _ => .ok (some pm)
          | .ok (some _) => .error .typeError
  | .ok (some _) => .error .typeError

/-- `WsiDataset.pixel_spacing`: `none` when the pixel measure dataset is
`none` or carries no `PixelSpacing`; when any spacing component is zero a
warning is logged (the boolean of the result) and `none` is returned;
otherwise the first two components form the spacing.  The two-component
unpacking models `SizeMm.from_tuple`. -/
def pixel_spacing (strict : Bool) (ds : DicomDataset) :
    Except WsiError (Option SizeMm × Bool) :=
  match pixel_measure strict ds with
  | .error e => .error e
  | .ok none => .ok (none, false)
  | .ok (some pm) =>
      match lookupAttr pm "PixelSpacing" with
      | none => .ok (none, false)
      | some (.vNumList qs) =>
          if qs.any (fun q => q = 0) then .ok (none, true)
          else
            match qs with
            | a :: b :: _ => .ok (some ⟨a, b⟩, false)
            | _ => .error .indexError
      | some _ => .error .typeError

/-- `WsiDataset.mm_depth`: the `ImagedVolumeDepth` attribute resolved
through the requirement table, consumed as a number. -/
def mm_depth (strict : Bool) (ds : DicomDataset) :
    Except WsiError (Option ℚ) :=
  match get_dicom_attribute strict ds ds "ImagedVolumeDepth" with
  | .error e => .error e
  | .ok none => .ok none
  | .ok (some (.vNum q)) => .ok (some q)
  | .ok (some (.vInt n)) => .ok (some (n : ℚ))
  | .ok (some _) => .error .typeError

/-- `WsiDataset.number_of_focal_planes`: the `TotalPixelMatrixFocalPlanes`
attribute resolved through the requirement table (default 1). -/
def number_of_focal_planes (strict : Bool) (ds : DicomDataset) :
    Except WsiError Int :=
  match get_dicom_attribute strict ds ds "TotalPixelMatrixFocalPlanes" with
  | .error e => .error e
  | .ok (some (.vInt n)) => .ok n
  | .ok _ => .error .typeError

/-- `WsiDataset.slice_thickness`: the `SliceThickness` attribute from the
pixel measure dataset (or from the dataset itself when the pixel measure is
`none`), falling back, when that access raises an `AttributeError`, to the
imaged volume depth divided by the number of focal planes. -/
def slice_thickness (strict : Bool) (ds : DicomDataset) :
    Except WsiError (Option ℚ) :=
  let attempt : Except WsiError (Option ℚ) :=
    match pixel_measure strict ds with
    | .error e => .error e
    | .ok pmOpt =>
        match get_dicom_attribute strict ds (pmOpt.getD ds) "SliceThickness" with
        | .error e => .error e
        | .ok none => .ok none
        | .ok (some (.vNum q)) => .ok (some q)
        | .ok (some (.vInt n)) => .ok (some (n : ℚ))
        | .ok (some _) => .error .typeError
  match attempt with
  | .error .attributeError =>
      match mm_depth strict ds with
      | .error e => .error e
      | .ok none => .ok none
      | .ok (some d) =>
          match number_of_focal_planes strict ds with
          | .error e => .error e
          | .ok n =>
              if n = 0 then .error .zeroDivisionError
              else .ok (some (d / (n : ℚ)))
  | r => r

/-- Consecutive differences of a list (the values
`sorted[index + 1] - sorted[index]` of the spacing loop). -/
def consecutiveDiffs : List ℚ → List ℚ
  | a :: b :: rest => (b - a) :: consecutiveDiffs (b :: rest)
  | _ => []

/-- `WsiDataset._get_spacing_between_slices_for_focal_planes`: a single
focal plane gives spacing 0; otherwise the focal planes are sorted, the
first consecutive difference becomes the spacing, every later consecutive
difference must agree with it within the configured threshold
(`settings.focal_plane_distance_threshold`, the `threshold` parameter) or
the `NotImplementedError` for non-uniform spacing is raised, and the
spacing is converted from micrometers to millimeters.  An empty input
reaches the final `ValueError`. -/
def get_spacing_between_slices_for_focal_planes (threshold : ℚ)
    (focal_planes : List ℚ) : Except WsiError ℚ :=
  if focal_planes.length = 1 then .ok 0
  else
    match consecutiveDiffs (focal_planes.insertionSort (· ≤ ·)) with
    | [] => .error .valueError
    | d0 :: rest =>
        if rest.all (fun d => |d0 - d| ≤ threshold) then .ok (d0 / 1000)
        else .error .notImplementedError

/-- Whether every requirement-table entry that `evaluate` marks as required
for the image type is present in the dataset (the rejection loop of
`is_supported_wsi_dicom`, which returns `None` at the first missing
required attribute). -/
def required_attributes_present (strict : Bool) (ds : DicomDataset)
    (it : ImageType) : Bool :=
  WSI_ATTRIBUTES.all fun p =>
    (lookupAttr ds p.1).isSome || !(p.2.evaluate strict it)

/-- `WsiDataset.is_supported_wsi_dicom`: `none` when the SOP class is not
the whole-slide-image class, the image-type descriptor value is unknown (a
`ValueError`, the only exception the code catches), a required attribute is
missing, or the transfer syntax is not supported; the parsed image type
otherwise.  The external codec capability
(`pillow_handler.supports_transfer_syntax`) is passed as the `supports`
parameter.  A dataset without a `SOPClassUID` or `ImageType` attribute
raises an `AttributeError` (the direct accesses), and a short descriptor
raises an `IndexError`; neither is caught. -/
def is_supported_wsi_dicom (supports : String → Bool) (strict : Bool)
    (ds : DicomDataset) (tsUid : String) :
    Except WsiError (Option ImageType) :=
  match lookupAttr ds "SOPClassUID" with
  | none => .error .attributeError
  | some (.vStr sop) =>
      if sop ≠ WSI_SOP_CLASS_UID then .ok none
      else
        match lookupAttr ds "ImageType" with
        | none => .error .attributeError
        | some (.vStrList l) =>
            match get_image_type l with
            | .error .valueError => .ok none
            | .error e => .error e
            | .ok it =>
                if required_attributes_present strict ds it then
                  if supports tsUid then .ok (some it) else .ok none
                else .ok none
        | some _ => .error .typeError
  | some _ => .error .typeError

/-- `WsiDataset.as_tiled_full`, through the point at which
`NumberOfFrames` is recomputed (everything of the source before the line
`scaled_size = dataset.image_size.ceil_div(scale)`).  The deep copy of the
dataset is the value `ds` itself under the functional semantics; the reads
`dataset.pixel_spacing` and `dataset.slice_thickness` are performed against
the copy after only `DimensionOrganizationType` has been set, which is
faithful because the in-place edits the source has made to the shared
functional group by those points touch only attributes
(`PlanePositionSlideSequence`, `PixelSpacing`, `SpacingBetweenSlices`)
that those two derivations never read. -/
def as_tiled_full_pre (strict : Bool) (threshold : ℚ) (ds : DicomDataset)
    (focal_planes : List ℚ) (optical_paths : List String)
    (tiled_size : Size) (scale : Int) : Except WsiError DicomDataset :=
  let ds := setAttr ds "DimensionOrganizationType" (.vStr "TILED_FULL")
  let sfg :=
    match lookupAttr ds "SharedFunctionalGroupsSequence" with
    | some (.vDatasetList l) => some l
    | some _ => none
    | none => some [[]]
  match sfg with
  | none => .error .typeError
  | some sfg =>
      match focal_planes.head? with
      | none => .error .indexError
      | some z0 =>
          match sfg with
          | [] => .error .indexError
          | g0 :: sfgRest =>
              let g0 := setAttr g0 "PlanePositionSlideSequence"
                (.vDatasetList [[("ZOffsetInSlideCoordinateSystem", .vNum z0)]])
              let pms :=
                match lookupAttr g0 "PixelMeasuresSequence" with
                | some (.vDatasetList l) => some l
                | some _ => none
                | none => some [[]]
              match pms with
              | none => .error .typeError
              | some [] => .error .indexError
              | some (pm0 :: pmsRest) =>
                  match pixel_spacing strict ds with
                  | .error e => .error e
                  | .ok (ps, _) =>
                      let pm0 :=
                        match ps with
                        | some s =>
                            setAttr pm0 "PixelSpacing"
                              (.vNumList [s.width * scale, s.height * scale])
                        | none => pm0
                      match get_spacing_between_slices_for_focal_planes
                          threshold focal_planes with
                      | .error e => .error e
                      | .ok spacing =>
                          let pm0 := setAttr pm0 "SpacingBetweenSlices"
                            (.vNum spacing)
                          match slice_thickness strict ds with
                          | .error e => .error e
                          | .ok st =>
                              let pm0 :=
                                match st with
                                | some t =>
                                    setAttr pm0 "SliceThickness" (.vNum t)
                                | none => pm0
                              let g0 := setAttr g0 "PixelMeasuresSequence"
                                (.vDatasetList (pm0 :: pmsRest))
                              let ds := setAttr ds
                                "SharedFunctionalGroupsSequence"
                                (.vDatasetList (g0 :: sfgRest))
                              let ds := removeAttr ds
                                "PerFrameFunctionalGroupsSequence"
                              let ds := setAttr ds "TotalPixelMatrixFocalPlanes"
                                (.vInt focal_planes.length)
                              let ds := setAttr ds "NumberOfOpticalPaths"
                                (.vInt optical_paths.length)
                              .ok (setAttr ds "NumberOfFrames"
                                (.vInt (max (tiled_size.ceil_div_int scale).area 1
                                  * focal_planes.length * optical_paths.length)))

/-- `WsiDataset.as_tiled_full`: the updated copy of the dataset with the
scaled total pixel matrix size written last, where the scaled size is the
ceiling division by `scale` of the image size the copy derives after the
frame count has been recomputed. -/
def as_tiled_full (strict : Bool) (threshold : ℚ) (ds : DicomDataset)
    (focal_planes : List ℚ) (optical_paths : List String)
    (tiled_size : Size) (scale : Int) : Except WsiError DicomDataset :=
  match as_tiled_full_pre strict threshold ds focal_planes optical_paths
      tiled_size scale with
  | .error e => .error e
  | .ok ds1 =>
      match image_size strict ds1 with
      | .error e => .error e
      | .ok (sz, _) =>
          let scaled := sz.ceil_div_int scale
          .ok (setAttr
            (setAttr ds1 "TotalPixelMatrixColumns" (.vInt (max scaled.width 1)))
            "TotalPixelMatrixRows" (.vInt (max scaled.height 1)))

/-- Whether a result is a normal return (no exception propagated). -/
def isOkResult {α : Type} : Except WsiError α → Bool
  | .ok _ => true
  | .error _ => false

/-! Concrete datasets used by the witnesses and counterexamples. -/

/-- A dataset with only an `ImageType` attribute classifying it as a VOLUME
image; the `FocusMethod` attribute is absent. -/
def dsFocusMethodMissing : DicomDataset :=
  [("ImageType", .vStrList ["ORIGINAL", "PRIMARY", "VOLUME", "NONE"])]

/-- A dataset carrying a pixel measure with whole-number spacing in both
directions. -/
def dsPixelSpacing : DicomDataset :=
  [("SharedFunctionalGroupsSequence", .vDatasetList
      [[("PixelMeasuresSequence", .vDatasetList
          [[("PixelSpacing", .vNumList [2, 3])]])]])]

/-- A single-frame LABEL dataset whose declared pixel matrix does not match
its tile size. -/
def dsLabelMismatch : DicomDataset :=
  [("ImageType", .vStrList ["ORIGINAL", "PRIMARY", "LABEL", "NONE"]),
   ("TotalPixelMatrixColumns", .vInt 5),
   ("TotalPixelMatrixRows", .vInt 5),
   ("Columns", .vInt 4),
   ("Rows", .vInt 4),
   ("DimensionOrganizationType", .vStr "TILED_FULL")]

/-- A dataset with a per-frame functional group sequence and no explicit
dimension-organization marker. -/
def dsPerFrame : DicomDataset :=
  [("ImageType", .vStrList ["ORIGINAL", "PRIMARY", "VOLUME", "NONE"]),
   ("PerFrameFunctionalGroupsSequence", .vDatasetList [[]])]

/-- A VOLUME dataset that carries every attribute required of it in strict
mode except `FocusMethod`, and the whole-slide-image SOP class. -/
def dsStrictMissingFocus : DicomDataset :=
  [("SOPClassUID", .vStr WSI_SOP_CLASS_UID),
   ("ImageType", .vStrList ["ORIGINAL", "PRIMARY", "VOLUME", "NONE"]),
   ("SharedFunctionalGroupsSequence", .vDatasetList
      [[("PixelMeasuresSequence", .vDatasetList [[]])]]),
   ("ExtendedDepthOfField", .vStr "NO"),
   ("ImagedVolumeWidth", .vNum 1),
   ("ImagedVolumeHeight", .vNum 1),
   ("ImagedVolumeDepth", .vNum 1)]

/-- A dataset carrying only the whole-slide-image SOP class and no
`ImageType` attribute. -/
def dsNoImageType : DicomDataset :=
  [("SOPClassUID", .vStr WSI_SOP_CLASS_UID)]

/-- A VOLUME dataset tiled 2 by 2 with 2-by-2-pixel tiles, used to run
`as_tiled_full`. -/
def dsTiledVolume : DicomDataset :=
  [("ImageType", .vStrList ["ORIGINAL", "PRIMARY", "VOLUME", "NONE"]),
   ("TotalPixelMatrixColumns", .vInt 4),
   ("TotalPixelMatrixRows", .vInt 4),
   ("Columns", .vInt 2),
   ("Rows", .vInt 2)]

/-- The dataset `as_tiled_full_pre` produces from `dsTiledVolume` with one
focal plane, one optical path, tiled size 2 by 2 and scale 1. -/
def dsTiledVolumePre : DicomDataset :=
  [("ImageType", .vStrList ["ORIGINAL", "PRIMARY", "VOLUME", "NONE"]),
   ("TotalPixelMatrixColumns", .vInt 4),
   ("TotalPixelMatrixRows", .vInt 4),
   ("Columns", .vInt 2),
   ("Rows", .vInt 2),
   ("DimensionOrganizationType", .vStr "TILED_FULL"),
   ("SharedFunctionalGroupsSequence", .vDatasetList
      [[("PlanePositionSlideSequence", .vDatasetList
           [[("ZOffsetInSlideCoordinateSystem", .vNum 0)]]),
        ("PixelMeasuresSequence", .vDatasetList
           [[("SpacingBetweenSlices", .vNum 0)]])]]),
   ("TotalPixelMatrixFocalPlanes", .vInt 1),
   ("NumberOfOpticalPaths", .vInt 1),
   ("NumberOfFrames", .vInt 4)]

/-! Helper lemmas about the attribute store. -/

theorem lookupAttr_setAttr_self (ds : DicomDataset) (n : String)
    (v : DicomValue) : lookupAttr (setAttr ds n v) n = some v := by
  induction ds with
  | nil => simp [setAttr, lookupAttr]
  | cons hd tl ih =>
      obtain ⟨k, w⟩ := hd
      by_cases h : k = n <;> simp [setAttr, lookupAttr, h, ih]

theorem lookupAttr_setAttr_ne (ds : DicomDataset) {m n : String}
    (h : m ≠ n) (v : DicomValue) :
    lookupAttr (setAttr ds n v) m = lookupAttr ds m := by
  have h' : ¬(n = m) := fun hh => h hh.symm
  induction ds with
  | nil => simp [setAttr, lookupAttr, h']
  | cons hd tl ih =>
      obtain ⟨k, w⟩ := hd
      by_cases hk : k = n
      · subst hk
        simp [setAttr, lookupAttr, h']
      · by_cases hm : k = m <;> simp [setAttr, lookupAttr, hk, hm, h, ih]

theorem mem_of_lookupReq {l : List (String × WsiAttributeRequirement)}
    {name : String} {req : WsiAttributeRequirement}
    (h : lookupReq l name = some req) : (name, req) ∈ l := by
  induction l with
  | nil => simp [lookupReq] at h
  | cons hd tl ih =>
      obtain ⟨k, w⟩ := hd
      by_cases hk : k = name
      · subst hk
        simp only [lookupReq, if_true, eq_self_iff_true,
          Option.some.injEq] at h
        subst h
        exact List.mem_cons_self _ _
      · simp only [lookupReq, hk, if_false] at h
        exact List.mem_cons_of_mem _ (ih h)

/-! Claim C5. -/

/-- Claim C5, counterexample: the `WsiAttributeRequirement` constructor
performs no validation, so a requirement constructed with severity ALWAYS
and a default keeps both: the claim that the constructor rejects a default
on an ALWAYS-severity requirement is false. -/
theorem always_requirement_accepts_default :
    (WsiAttributeRequirement.init .ALWAYS none
        (some (.vStr "X"))).requirement = .ALWAYS ∧
    (WsiAttributeRequirement.init .ALWAYS none
        (some (.vStr "X"))).default = some (.vStr "X") :=
  ⟨rfl, rfl⟩

/-- Claim C5, amended: the constructor does not reject a default on an
ALWAYS-severity requirement, but every ALWAYS entry of the process-wide
`WSI_ATTRIBUTES` table does carry no default. -/
theorem wsi_attributes_always_no_default :
    ∀ p ∈ WSI_ATTRIBUTES, p.2.requirement = .ALWAYS →
      p.2.default.isNone = true := by
  decide

/-- Witness for the amended C5 theorem at the first table entry. -/
theorem wsi_attributes_always_no_default_witness :
    (("SOPClassUID", WsiAttributeRequirement.init .ALWAYS none none)
        ∈ WSI_ATTRIBUTES) ∧
    (WsiAttributeRequirement.init .ALWAYS none none).default.isNone = true := by
  have hm : ("SOPClassUID", WsiAttributeRequirement.init .ALWAYS none none)
      ∈ WSI_ATTRIBUTES := by
    unfold WSI_ATTRIBUTES
    exact List.mem_cons_self _ _
  exact ⟨hm, wsi_attributes_always_no_default _ hm rfl⟩

/-! Claim C2. -/

/-- Claim C2, counterexample: `FocusMethod` is a STRICT attribute for
VOLUME images with the table default `"AUTO"`, yet with strict mode on the
getter raises the strict-requirement error instead of returning the
default: the severity checks run before the default is consulted, so the
claimed resolution order (stored value, then default, then severity
errors) is false. -/
theorem get_dicom_attribute_default_counterexample :
    lookupAttr dsFocusMethodMissing "FocusMethod" = none ∧
    lookupReq WSI_ATTRIBUTES "FocusMethod" =
      some (.init .STRICT (some [.VOLUME]) (some (.vStr "AUTO"))) ∧
    (WsiAttributeRequirement.init .STRICT (some [.VOLUME])
        (some (.vStr "AUTO"))).default = some (.vStr "AUTO") ∧
    get_dicom_attribute true dsFocusMethodMissing dsFocusMethodMissing
      "FocusMethod" = .error .strictRequirementError :=
  ⟨rfl, rfl, rfl, rfl⟩

/-- Claim C2, amended: for every attribute name in the requirement table
and every dataset whose image type derives, the getter returns the stored
value if the attribute is present; otherwise, if the severity is ALWAYS and
the image type is applicable it fails with the requirement error; if the
severity is STRICT, the image type is applicable and strict mode is on it
fails with the strict-requirement error; otherwise it returns the table
default (which is the absent value when the table has no default). -/
theorem get_dicom_attribute_resolution (strict : Bool) (ds : DicomDataset)
    (name : String) (req : WsiAttributeRequirement) (it : ImageType)
    (hreq : lookupReq WSI_ATTRIBUTES name = some req)
    (hit : image_type ds = .ok it) :
    get_dicom_attribute strict ds ds name =
      match lookupAttr ds name with
      | some v => .ok (some v)
      | none =>
          if req.requirement = .ALWAYS ∧ it ∈ req.image_types then
            .error .requirementError
          else if strict ∧ req.requirement = .STRICT ∧ it ∈ req.image_types
          then .error .strictRequirementError
          else .ok req.default := by
  unfold get_dicom_attribute
  cases h : lookupAttr ds name with
  | some v => rfl
  | none => rw [hreq, hit]; rfl

/-- Witness for the amended C2 theorem: with strict mode off, the missing
`FocusMethod` of a VOLUME dataset resolves to the table default. -/
theorem get_dicom_attribute_resolution_witness :
    get_dicom_attribute false dsFocusMethodMissing dsFocusMethodMissing
      "FocusMethod" = .ok (some (.vStr "AUTO")) := by
  rw [get_dicom_attribute_resolution false dsFocusMethodMissing "FocusMethod"
    (.init .STRICT (some [.VOLUME]) (some (.vStr "AUTO"))) .VOLUME rfl rfl]
  rfl

/-! Claim C7. -/

/-- Consecutive differences of a list with at most one element are empty. -/
theorem consecutiveDiffs_eq_nil {l : List ℚ} (h : l.length ≤ 1) :
    consecutiveDiffs l = [] := by
  match l with
  | [] => rfl
  | [a] => rfl
  | a :: b :: rest => simp at h

/-- Claim C7: for a non-empty focal-plane list, a single focal plane yields
spacing 0; otherwise the focal planes are sorted, and with `d0` the first
consecutive difference of the sorted list, the computation succeeds (with
spacing `d0` converted to millimeters) exactly when every later consecutive
difference agrees with `d0` within the configured threshold, and raises the
non-uniform-spacing error (cannot represent as TILED_FULL) when any
difference disagrees. -/
theorem spacing_between_slices_spec (threshold : ℚ) (fp : List ℚ)
    (hne : fp ≠ []) :
    (fp.length = 1 →
      get_spacing_between_slices_for_focal_planes threshold fp = .ok 0) ∧
    (∀ d0 rest,
      consecutiveDiffs (fp.insertionSort (· ≤ ·)) = d0 :: rest →
      ((∀ d ∈ rest, |d0 - d| ≤ threshold) →
        get_spacing_between_slices_for_focal_planes threshold fp =
          .ok (d0 / 1000)) ∧
      ((∃ d ∈ rest, threshold < |d0 - d|) →
        get_spacing_between_slices_for_focal_planes threshold fp =
          .error .notImplementedError)) := by
  constructor
  · intro h1
    unfold get_spacing_between_slices_for_focal_planes
    rw [if_pos h1]
  · intro d0 rest hd
    have hlen : fp.length ≠ 1 := by
      intro h1
      have : consecutiveDiffs (fp.insertionSort (· ≤ ·)) = [] :=
        consecutiveDiffs_eq_nil (by rw [List.length_insertionSort]; omega)
      rw [hd] at this
      exact List.noConfusion this
    unfold get_spacing_between_slices_for_focal_planes
    rw [if_neg hlen, hd]
    constructor
    · intro hall
      have hb : (rest.all fun d => decide (|d0 - d| ≤ threshold)) = true := by
        simp only [List.all_eq_true, decide_eq_true_eq]
        exact hall
      simp [hb]
    · rintro ⟨d, hdm, hlt⟩
      have hb : ¬((rest.all fun d => decide (|d0 - d| ≤ threshold)) = true) := by
        rw [List.all_eq_true]
        simp only [decide_eq_true_eq]
        push_neg
        exact ⟨d, hdm, hlt⟩
      simp [hb]

/-- Witness for the C7 theorem: three uniformly spaced focal planes. -/
theorem spacing_between_slices_spec_witness :
    get_spacing_between_slices_for_focal_planes 1 [0, 10, 20] =
      .ok (10 / 1000) := by
  have h := (spacing_between_slices_spec 1 [0, 10, 20] (by simp)).2
    10 [10] (by norm_num [List.insertionSort, List.orderedInsert,
      consecutiveDiffs])
  exact h.1 (by norm_num)

/-! Claim C10. -/

/-- Claim C10: the derived pixel spacing is the absent value whenever the
pixel-measure dataset is absent, the `PixelSpacing` attribute is absent, or
any `PixelSpacing` component equals 0 (and only the zero case logs a
warning, the boolean of the result); consequently a returned spacing never
has a zero component. -/
theorem pixel_spacing_spec (strict : Bool) (ds : DicomDataset) :
    (pixel_measure strict ds = .ok none →
      pixel_spacing strict ds = .ok (none, false)) ∧
    (∀ pm, pixel_measure strict ds = .ok (some pm) →
      lookupAttr pm "PixelSpacing" = none →
      pixel_spacing strict ds = .ok (none, false)) ∧
    (∀ pm qs, pixel_measure strict ds = .ok (some pm) →
      lookupAttr pm "PixelSpacing" = some (.vNumList qs) →
      (0 : ℚ) ∈ qs →
      pixel_spacing strict ds = .ok (none, true)) ∧
    (∀ s w, pixel_spacing strict ds = .ok (some s, w) →
      s.width ≠ 0 ∧ s.height ≠ 0) := by
  refine ⟨?_, ?_, ?_, ?_⟩
  · intro h
    unfold pixel_spacing
    rw [h]
  · intro pm h hps
    unfold pixel_spacing
    rw [h]
    simp only [hps]
  · intro pm qs h hps h0
    unfold pixel_spacing
    rw [h]
    simp only [hps]
    have hb : (qs.any fun q => decide (q = 0)) = true := by
      simp only [List.any_eq_true, decide_eq_true_eq]
      exact ⟨0, h0, rfl⟩
    simp [hb]
  · intro s w h
    unfold pixel_spacing at h
    cases hpm : pixel_measure strict ds with
    | error e => simp [hpm] at h
    | ok pmo =>
        cases pmo with
        | none => simp [hpm] at h
        | some pm =>
            simp only [hpm] at h
            cases hps : lookupAttr pm "PixelSpacing" with
            | none => simp [hps] at h
            | some v =>
                simp only [hps] at h
                cases v with
                | vNumList qs =>
                    dsimp only at h
                    by_cases hz : (qs.any fun q => decide (q = 0)) = true
                    · rw [if_pos hz] at h
                      simp at h
                    · rw [if_neg hz] at h
                      simp only [List.any_eq_true, decide_eq_true_eq,
                        not_exists] at hz
                      push_neg at hz
                      match qs, h with
                      | a :: b :: rest, h =>
                          simp only [Except.ok.injEq, Prod.mk.injEq,
                            Option.some.injEq] at h
                          obtain ⟨hsv, _⟩ := h
                          subst hsv
                          exact ⟨hz a (List.mem_cons_self _ _),
                            hz b (List.mem_cons_of_mem _
                              (List.mem_cons_self _ _))⟩
                | vInt n => simp at h
                | vNum q => simp at h
                | vStr t => simp at h
                | vStrList l => simp at h
                | vDatasetList l => simp at h

/-- Witness for the C10 theorem: a returned spacing has no zero
component. -/
theorem pixel_spacing_spec_witness :
    (2 : ℚ) ≠ 0 ∧ (3 : ℚ) ≠ 0 := by
  have h := (pixel_spacing_spec false dsPixelSpacing).2.2.2
    ⟨2, 3⟩ false (by rfl)
  exact h

/-! Claim C1. -/

/-- Claim C1: for a dataset with FULL tiling (and positive declared size),
when `ceil(image_size / tile_size).area` equals the frame count the
declared size is returned; on a mismatch the derivation raises the fatal
`WsiDicomError` when the image type is VOLUME or the frame count is not 1,
and for a single-frame LABEL or OVERVIEW dataset instead returns the tile
size as the image size while logging a warning (the boolean of the
result). -/
theorem image_size_full_consistency (strict : Bool) (ds : DicomDataset)
    (cols rows : Int) (ts : Size) (n : Int) (it : ImageType)
    (hc : lookupAttr ds "TotalPixelMatrixColumns" = some (.vInt cols))
    (hr : lookupAttr ds "TotalPixelMatrixRows" = some (.vInt rows))
    (hcpos : 0 < cols) (hrpos : 0 < rows)
    (htw : 0 < ts.width) (hth : 0 < ts.height)
    (htt : tile_type strict ds = .ok .FULL)
    (hts : tile_size ds = .ok ts)
    (hfc : frame_count strict ds = .ok n)
    (hit : image_type ds = .ok it) :
    (((Size.mk cols rows).ceil_div_size ts).area = n →
      image_size strict ds = .ok (⟨cols, rows⟩, false)) ∧
    (((Size.mk cols rows).ceil_div_size ts).area ≠ n →
      (it = .VOLUME ∨ n ≠ 1) →
      image_size strict ds = .error .wsiDicomError) ∧
    (((Size.mk cols rows).ceil_div_size ts).area ≠ n →
      it ≠ .VOLUME → n = 1 →
      image_size strict ds = .ok (ts, true)) := by
  have hgc : getIntAttr ds "TotalPixelMatrixColumns" = .ok cols := by
    unfold getIntAttr
    rw [hc]
  have hgr : getIntAttr ds "TotalPixelMatrixRows" = .ok rows := by
    unfold getIntAttr
    rw [hr]
  have hnp : ¬(cols ≤ 0 ∨ rows ≤ 0) := by omega
  unfold image_size
  simp only [hgc, hgr, htt, hts, hfc, hit]
  rw [if_neg hnp]
  refine ⟨?_, ?_, ?_⟩
  · intro heq
    rw [if_pos heq]
  · intro hne hvol
    rw [if_neg hne, if_pos hvol]
  · intro hne hnv h1
    rw [if_neg hne, if_neg (by simp [hnv, h1])]

/-- Witness for the C1 theorem: the mismatched single-frame LABEL dataset
gets its image size overridden to the tile size with the warning logged. -/
theorem image_size_full_consistency_witness :
    image_size false dsLabelMismatch = .ok (⟨4, 4⟩, true) := by
  have h := (image_size_full_consistency false dsLabelMismatch 5 5 ⟨4, 4⟩ 1
    .LABEL rfl rfl (by norm_num) (by norm_num) (by norm_num) (by norm_num)
    rfl rfl rfl rfl).2.2
  exact h (by decide) (by simp) rfl

/-! Claim C3. -/

/-- Claim C3: the tiling-type derivation returns FULL when the
dimension-organization attribute is the explicit `"TILED_FULL"` marker;
otherwise returns SPARSE when the per-frame functional group sequence is
present; otherwise returns FULL when the frame count is 1; and otherwise
raises the fatal undetermined-tiling `WsiDicomError`.  Exactly one of FULL
and SPARSE is returned on success since the two are the only values of the
result type. -/
theorem tile_type_inference (strict : Bool) (ds : DicomDataset)
    (it : ImageType) (hit : image_type ds = .ok it) :
    (isTiledFullMarker (lookupAttr ds "DimensionOrganizationType") = true →
      tile_type strict ds = .ok .FULL) ∧
    (isTiledFullMarker (lookupAttr ds "DimensionOrganizationType") = false →
      (lookupAttr ds "PerFrameFunctionalGroupsSequence").isSome = true →
      tile_type strict ds = .ok .SPARSE) ∧
    (∀ n, isTiledFullMarker (lookupAttr ds "DimensionOrganizationType") = false →
      (lookupAttr ds "PerFrameFunctionalGroupsSequence").isSome = false →
      frame_count strict ds = .ok n →
      ((n = 1 → tile_type strict ds = .ok .FULL) ∧
       (n ≠ 1 → tile_type strict ds = .error .wsiDicomError))) := by
  have hdefault : get_dicom_attribute strict ds ds "DimensionOrganizationType" =
      match lookupAttr ds "DimensionOrganizationType" with
      | some v => .ok (some v)
      | none => .ok (some (.vStr "TILED_SPARSE")) := by
    unfold get_dicom_attribute
    cases hdo : lookupAttr ds "DimensionOrganizationType" with
    | some v => rfl
    | none =>
        rw [show lookupReq WSI_ATTRIBUTES "DimensionOrganizationType" =
          some (.init .STANDARD none (some (.vStr "TILED_SPARSE"))) from rfl,
          hit]
        simp [WsiAttributeRequirement.get_default, WsiAttributeRequirement.init]
  refine ⟨?_, ?_, ?_⟩
  · intro hm
    unfold tile_type
    rw [hdefault]
    cases hdo : lookupAttr ds "DimensionOrganizationType" with
    | none => rw [hdo] at hm; simp [isTiledFullMarker] at hm
    | some v =>
        rw [hdo] at hm
        simp only [hdo]
        rw [if_pos hm]
  · intro hm hpf
    unfold tile_type
    rw [hdefault]
    cases hdo : lookupAttr ds "DimensionOrganizationType" with
    | none =>
        simp only [hdo]
        rw [if_neg (by simp [isTiledFullMarker]), if_pos hpf]
    | some v =>
        rw [hdo] at hm
        simp only [hdo]
        rw [if_neg (by simp [hm]), if_pos hpf]
  · intro n hm hpf hfc
    have hrest : tile_type strict ds =
        match frame_count strict ds with
        | .error e => .error e
        | .ok n => if n = 1 then .ok .FULL else .error .wsiDicomError := by
      unfold tile_type
      rw [hdefault]
      cases hdo : lookupAttr ds "DimensionOrganizationType" with
      | none =>
          simp only [hdo]
          rw [if_neg (by simp [isTiledFullMarker]), if_neg (by simp [hpf])]
      | some v =>
          rw [hdo] at hm
          simp only [hdo]
          rw [if_neg (by simp [hm]), if_neg (by simp [hpf])]
    rw [hrest]
    simp only [hfc]
    constructor
    · intro h1
      rw [if_pos h1]
    · intro h1
      rw [if_neg h1]

/-- Witness for the C3 theorem: per-frame position metadata without the
explicit marker gives SPARSE tiling. -/
theorem tile_type_inference_witness :
    tile_type false dsPerFrame = .ok .SPARSE := by
  exact (tile_type_inference false dsPerFrame .VOLUME rfl).2.1 rfl rfl

/-! Claims C4 and C6: classification. -/

/-- Helper: with the SOP class and image-type attributes present,
classification reduces to the four checks in order. -/
theorem is_supported_classification (supports : String → Bool) (strict : Bool)
    (ds : DicomDataset) (ts : String) (sop : String) (l : List String)
    (hs : lookupAttr ds "SOPClassUID" = some (.vStr sop))
    (hi : lookupAttr ds "ImageType" = some (.vStrList l)) :
    is_supported_wsi_dicom supports strict ds ts =
      if sop = WSI_SOP_CLASS_UID then
        match get_image_type l with
        | .error e => if e = .valueError then .ok none else .error e
        | .ok it =>
            if required_attributes_present strict ds it then
              if supports ts then .ok (some it) else .ok none
            else .ok none
      else .ok none := by
  unfold is_supported_wsi_dicom
  simp only [hs]
  by_cases hsop : sop = WSI_SOP_CLASS_UID
  · rw [if_neg (fun hx => hx hsop), if_pos hsop]
    simp only [hi]
    cases hgt : get_image_type l with
    | error e => cases e <;> simp
    | ok it => rfl
  · rw [if_pos hsop, if_neg hsop]

/-- Helper: a descriptor with at least three parts never under-indexes, so
the image-type parse is a known type or the caught `ValueError`. -/
theorem get_image_type_of_length {l : List String} (hl : 3 ≤ l.length) :
    get_image_type l = .error .valueError ∨
      ∃ it, get_image_type l = .ok it := by
  unfold get_image_type
  cases hg : l.get? 2 with
  | none =>
      rw [List.get?_eq_none] at hg
      omega
  | some s =>
      by_cases hV : s = "VOLUME"
      · exact .inr ⟨.VOLUME, by simp [hV]⟩
      · by_cases hL : s = "LABEL"
        · exact .inr ⟨.LABEL, by simp [hV, hL]⟩
        · by_cases hO : s = "OVERVIEW"
          · exact .inr ⟨.OVERVIEW, by simp [hV, hL, hO]⟩
          · exact .inl (by simp [hV, hL, hO])

/-- Helper: a required attribute that is missing makes the presence check
of the classification loop fail. -/
theorem required_attributes_present_eq_false {strict : Bool}
    {ds : DicomDataset} {it : ImageType} {name : String}
    {req : WsiAttributeRequirement}
    (hreq : lookupReq WSI_ATTRIBUTES name = some req)
    (hmiss : lookupAttr ds name = none)
    (heval : req.evaluate strict it = true) :
    required_attributes_present strict ds it = false := by
  cases hx : required_attributes_present strict ds it
  · rfl
  · exfalso
    unfold required_attributes_present at hx
    have hall := List.all_eq_true.mp hx _ (mem_of_lookupReq hreq)
    simp [hmiss, heval] at hall

/-- Claim C6, counterexample: a dataset carrying the whole-slide-image SOP
class but no `ImageType` attribute makes classification raise an attribute
error rather than return the absent result, so a failing check does not
always yield the none result. -/
theorem classification_raises_counterexample :
    is_supported_wsi_dicom (fun _ => true) false dsNoImageType "ts" =
      .error .attributeError := rfl

/-- Claim C6, amended: provided the dataset carries `SOPClassUID` and an
image-type descriptor of at least three parts, classification never raises,
and it returns an image type only when the SOP class equals the
whole-slide-image class, the descriptor parses to a known image type, every
requirement-table entry whose severity is active for that image type is
present, and the transfer syntax is reported decodable.  A dataset missing
either attribute, or with a shorter descriptor, raises instead. -/
theorem classification_characterization (supports : String → Bool)
    (strict : Bool) (ds : DicomDataset) (ts : String) (sop : String)
    (l : List String)
    (hs : lookupAttr ds "SOPClassUID" = some (.vStr sop))
    (hi : lookupAttr ds "ImageType" = some (.vStrList l))
    (hl : 3 ≤ l.length) :
    isOkResult (is_supported_wsi_dicom supports strict ds ts) = true ∧
    (∀ it, is_supported_wsi_dicom supports strict ds ts = .ok (some it) →
      sop = WSI_SOP_CLASS_UID ∧ get_image_type l = .ok it ∧
      required_attributes_present strict ds it = true ∧
      supports ts = true) := by
  rw [is_supported_classification supports strict ds ts sop l hs hi]
  by_cases hsop : sop = WSI_SOP_CLASS_UID
  · rw [if_pos hsop]
    rcases get_image_type_of_length hl with hgt | ⟨it0, hgt⟩
    · rw [hgt]
      constructor
      · rfl
      · intro it hcontr
        simp at hcontr
    · rw [hgt]
      constructor
      · cases hreq : required_attributes_present strict ds it0 <;>
          cases hsup : supports ts <;> simp [hreq, hsup, isOkResult]
      · intro it h
        cases hreq : required_attributes_present strict ds it0
        · simp [hreq] at h
        · simp only [hreq, if_true] at h
          cases hsup : supports ts
          · simp [hsup] at h
          · simp only [hsup, if_true] at h
            have hit : it0 = it := by simpa using h
            subst hit
            exact ⟨hsop, rfl, hreq, rfl⟩
  · rw [if_neg hsop]
    constructor
    · rfl
    · intro it h
      simp at h

/-- Witness for the amended C6 theorem: a complete VOLUME dataset missing
only `FocusMethod` classifies without an exception. -/
theorem classification_characterization_witness :
    isOkResult (is_supported_wsi_dicom (fun _ => true) false
      dsStrictMissingFocus "ts") = true :=
  (classification_characterization (fun _ => true) false dsStrictMissingFocus
    "ts" WSI_SOP_CLASS_UID ["ORIGINAL", "PRIMARY", "VOLUME", "NONE"]
    rfl rfl (by decide)).1

/-- Claim C4, counterexample: the VOLUME dataset missing only the
STRICT-severity `FocusMethod` attribute classifies successfully with strict
mode off, and with strict mode on classification returns the absent result
instead of raising the strict-requirement error the claim asserts. -/
theorem strict_missing_classification_counterexample :
    is_supported_wsi_dicom (fun _ => true) false dsStrictMissingFocus "ts" =
      .ok (some .VOLUME) ∧
    is_supported_wsi_dicom (fun _ => true) true dsStrictMissingFocus "ts" =
      .ok none :=
  ⟨rfl, rfl⟩

/-- Claim C4, amended: a dataset that classifies as a supported WSI dataset
with strict mode off but is missing an attribute the requirement table
marks as required under strict mode for its image type classifies with
strict mode on as not supported (the none result); no strict-requirement
error is raised by classification. -/
theorem strict_missing_attribute_classification (supports : String → Bool)
    (ds : DicomDataset) (ts : String) (sop : String) (l : List String)
    (name : String) (req : WsiAttributeRequirement) (it : ImageType)
    (hs : lookupAttr ds "SOPClassUID" = some (.vStr sop))
    (hi : lookupAttr ds "ImageType" = some (.vStrList l))
    (hok : is_supported_wsi_dicom supports false ds ts = .ok (some it))
    (hreq : lookupReq WSI_ATTRIBUTES name = some req)
    (hmiss : lookupAttr ds name = none)
    (hstrict : req.evaluate true it = true) :
    is_supported_wsi_dicom supports true ds ts = .ok none := by
  rw [is_supported_classification supports false ds ts sop l hs hi] at hok
  rw [is_supported_classification supports true ds ts sop l hs hi]
  by_cases hsop : sop = WSI_SOP_CLASS_UID
  · rw [if_pos hsop] at hok
    rw [if_pos hsop]
    cases hgt : get_image_type l with
    | error e =>
        simp only [hgt] at hok
        by_cases he : e = .valueError
        · rw [if_pos he] at hok
          simp at hok
        · rw [if_neg he] at hok
          simp at hok
    | ok it2 =>
        simp only [hgt] at hok ⊢
        cases hreqp : required_attributes_present false ds it2
        · simp [hreqp] at hok
        · simp only [hreqp, if_true] at hok
          cases hsup : supports ts
          · simp [hsup] at hok
          · simp only [hsup, if_true] at hok
            have hit : it2 = it := by simpa using hok
            subst hit
            rw [required_attributes_present_eq_false hreq hmiss hstrict]
            simp
  · rw [if_neg hsop] at hok
    simp at hok

/-- Witness for the amended C4 theorem at the concrete VOLUME dataset
missing `FocusMethod`. -/
theorem strict_missing_attribute_classification_witness :
    is_supported_wsi_dicom (fun _ => true) true dsStrictMissingFocus "ts" =
      .ok none :=
  strict_missing_attribute_classification (fun _ => true)
    dsStrictMissingFocus "ts" WSI_SOP_CLASS_UID
    ["ORIGINAL", "PRIMARY", "VOLUME", "NONE"] "FocusMethod"
    (.init .STRICT (some [.VOLUME]) (some (.vStr "AUTO"))) .VOLUME
    rfl rfl rfl rfl rfl rfl

/-! Claim C8. -/

/-- Helper: whenever `as_tiled_full_pre` succeeds, its result stores the
recomputed frame count `max(ceil(tiled_size / scale).area, 1)` times the
number of focal planes times the number of optical paths. -/
theorem as_tiled_full_pre_frames (strict : Bool) (threshold : ℚ)
    (ds : DicomDataset) (fp : List ℚ) (op : List String) (tsz : Size)
    (scale : Int) (ds1 : DicomDataset)
    (h : as_tiled_full_pre strict threshold ds fp op tsz scale = .ok ds1) :
    lookupAttr ds1 "NumberOfFrames" =
      some (.vInt (max (tsz.ceil_div_int scale).area 1
        * fp.length * op.length)) := by
  unfold as_tiled_full_pre at h
  dsimp only at h
  repeat' split at h
  all_goals first
    | exact Except.noConfusion h
    | (injection h with h2
       rw [← h2]
       exact lookupAttr_setAttr_self _ _ _)

/-- Claim C8: whenever `as_tiled_full` succeeds, the returned dataset's
frame count equals `max(ceil(tiled_size / scale).area, 1)` multiplied by
the number of focal planes and the number of optical paths, and its total
pixel-matrix columns and rows equal the image size the updated dataset
derives, divided by `scale` and rounded up, each at least 1. -/
theorem as_tiled_full_geometry (strict : Bool) (threshold : ℚ)
    (ds : DicomDataset) (fp : List ℚ) (op : List String) (tsz : Size)
    (scale : Int) (ds1 out : DicomDataset) (sz : Size) (w : Bool)
    (hfp : fp ≠ []) (hop : op ≠ []) (hscale : 0 < scale)
    (hpre : as_tiled_full_pre strict threshold ds fp op tsz scale = .ok ds1)
    (hsz : image_size strict ds1 = .ok (sz, w))
    (hrun : as_tiled_full strict threshold ds fp op tsz scale = .ok out) :
    lookupAttr out "NumberOfFrames" =
      some (.vInt (max (tsz.ceil_div_int scale).area 1
        * fp.length * op.length)) ∧
    lookupAttr out "TotalPixelMatrixColumns" =
      some (.vInt (max (sz.ceil_div_int scale).width 1)) ∧
    lookupAttr out "TotalPixelMatrixRows" =
      some (.vInt (max (sz.ceil_div_int scale).height 1)) := by
  unfold as_tiled_full at hrun
  simp only [hpre, hsz] at hrun
  injection hrun with h2
  rw [← h2]
  refine ⟨?_, ?_, ?_⟩
  · rw [lookupAttr_setAttr_ne _ (by decide) _,
      lookupAttr_setAttr_ne _ (by decide) _]
    exact as_tiled_full_pre_frames strict threshold ds fp op tsz scale ds1 hpre
  · rw [lookupAttr_setAttr_ne _ (by decide) _]
    exact lookupAttr_setAttr_self _ _ _
  · exact lookupAttr_setAttr_self _ _ _

/-- Witness for the C8 theorem: the 4-by-4 VOLUME dataset re-expressed as a
2-by-2 tiled-full grid with one focal plane and one optical path has 4
frames and keeps its 4-by-4 pixel matrix. -/
theorem as_tiled_full_geometry_witness :
    lookupAttr dsTiledVolumePre "NumberOfFrames" = some (.vInt 4) ∧
    lookupAttr dsTiledVolumePre "TotalPixelMatrixColumns" =
      some (.vInt 4) ∧
    lookupAttr dsTiledVolumePre "TotalPixelMatrixRows" = some (.vInt 4) := by
  have h := as_tiled_full_geometry false 1 dsTiledVolume [0] ["0"] ⟨2, 2⟩ 1
    dsTiledVolumePre dsTiledVolumePre ⟨4, 4⟩ false (by simp) (by simp)
    (by decide) rfl rfl rfl
  refine ⟨?_, ?_, ?_⟩
  · rw [h.1]
    norm_num [Size.ceil_div_int, Size.area, intCeilDiv]
  · rw [h.2.1]
    norm_num [Size.ceil_div_int, intCeilDiv]
  · rw [h.2.2]
    norm_num [Size.ceil_div_int, intCeilDiv]

end WsiDicom
